import Mathlib

/-!
Shallow embedding of `src/main.ts` and `src/environment.ts` of the
aave-health-factor-notifier repository.

Health factors and net worth are `decimal.js` values in the source; they are
embedded as rationals (`ℚ`), which models exact decimal arithmetic on the
comparisons and subtractions the program performs.  Absence of a health factor
(`Decimal | null`, tested with JavaScript truthiness — a `Decimal` object is
always truthy, even `Decimal(0)`) is embedded as `Option ℚ` with `none` for
`null`.  The mutable module-level variables `warningWasSent` and
`previousStatus` are threaded explicitly as an `EngineState`.
-/

namespace AaveNotifier

/-- Embeds the `UserStatus` interface (main.ts lines 13-16):
`healthFactor : Decimal | null`, `netWorth : Decimal`. -/
structure UserStatus where
  healthFactor : Option ℚ
  netWorth : ℚ
deriving DecidableEq, Repr

/-- Embeds the `Status` enum (main.ts lines 37-41). -/
inductive Status where
  | GOOD
  | WARNING
  | CRITICAL
deriving DecidableEq, Repr

/-- Embeds the decimal-valued configuration fields of `environment.ts`
(the threshold and delta settings used by the alert logic; the field name
`CRITITAL_DELTA` is the source's own spelling). -/
structure Environment where
  WARNING_LEVEL : ℚ
  CRITICAL_LEVEL : ℚ
  WARNING_DELTA : ℚ
  CRITITAL_DELTA : ℚ
deriving DecidableEq, Repr

/-- Embeds `getStatusFromHealth` (main.ts lines 43-51):
`health.greaterThanOrEqualTo(x)` is `x ≤ health`. -/
def getStatusFromHealth (env : Environment) (health : ℚ) : Status :=
  if env.WARNING_LEVEL ≤ health then Status.GOOD
  else if env.CRITICAL_LEVEL ≤ health then Status.WARNING
  else Status.CRITICAL

/-- Embeds the `AlertContext` interface (main.ts lines 87-90). -/
structure AlertContext where
  previousStatus : UserStatus
  status : UserStatus
deriving DecidableEq, Repr

/-- Embeds `getAlertTrigger` (main.ts lines 94-127).  The source reads and
mutates the module-level boolean `warningWasSent`; here it is passed in and the
updated value is returned alongside the trigger.  JavaScript truthiness
`!x.healthFactor` on a `Decimal | null` is a `null` test (a `Decimal` object is
truthy even when zero), so it is embedded as an `Option` match. -/
def getAlertTrigger (env : Environment) (warningWasSent : Bool)
    (context : AlertContext) : Option String × Bool :=
  match context.status.healthFactor, context.previousStatus.healthFactor with
  | none, some _ => (some "no health factor now", warningWasSent)
  | none, none => (none, warningWasSent)
  | some _, none => (none, warningWasSent)
  | some hf, some phf =>
    match getStatusFromHealth env hf with
    | Status.CRITICAL => (some "critical health factor", warningWasSent)
    | Status.WARNING =>
      if warningWasSent then (none, warningWasSent)
      else (some "warning health factor", true)
    | Status.GOOD =>
      let difference := hf - phf
      if -env.WARNING_DELTA < difference then (none, false)
      else if -env.CRITITAL_DELTA < difference then
        (some "warning delta of health factor", false)
      else (some "critical delta of health factor", false)

/-- The mutable module-level state of main.ts: `previousStatus`
(lines 129-132) and `warningWasSent` (line 92), threaded explicitly. -/
structure EngineState where
  previousStatus : UserStatus
  warningWasSent : Bool
deriving DecidableEq, Repr

/-- Embeds the initial values of the module-level state:
`previousStatus = { healthFactor: Decimal(0), netWorth: Decimal(0) }`
(main.ts lines 129-132) and `warningWasSent = false` (line 92).
`Decimal(0)` is a present (truthy) health factor, hence `some 0`. -/
def initialState : EngineState :=
  { previousStatus := { healthFactor := some 0, netWorth := 0 },
    warningWasSent := false }

/-- One evaluation step: the trigger decision of `getAlertTrigger` computed
against the state held before the call, together with the state updates
performed during `getAlertMessage` (main.ts lines 134-151): the latch value
left by `getAlertTrigger` and the unconditional `previousStatus = status`
assignment (line 144). -/
def evaluate (env : Environment) (s : EngineState) (status : UserStatus) :
    Option String × EngineState :=
  let r := getAlertTrigger env s.warningWasSent
    { previousStatus := s.previousStatus, status := status }
  (r.1, { previousStatus := status, warningWasSent := r.2 })

/-- Runs `evaluate` over a list of fetched samples, collecting the trigger
of each tick. -/
def runSequence (env : Environment) (s : EngineState) :
    List UserStatus → List (Option String)
  | [] => []
  | c :: cs =>
    let r := evaluate env s c
    r.1 :: runSequence env r.2 cs

/-- The default thresholds of environment.ts lines 8-15:
`WARNING_LEVEL=2.5`, `CRITICAL_LEVEL=1.7`, `WARNING_DELTA=0.5`,
`CRITITAL_DELTA=1`. -/
def defaultEnv : Environment :=
  { WARNING_LEVEL := 5/2, CRITICAL_LEVEL := 17/10,
    WARNING_DELTA := 1/2, CRITITAL_DELTA := 1 }

/-- Builds a sample with a present health factor and zero net worth. -/
def hfSample (h : ℚ) : UserStatus := { healthFactor := some h, netWorth := 0 }

/-- Builds a sample with an absent health factor. -/
def noHfSample : UserStatus := { healthFactor := none, netWorth := 0 }

/-- Decimal digit list of a natural number, most significant digit first.
Used to model the digit strings produced by `Decimal.toFixed`. -/
def natToDigitList (n : ℕ) : List Char :=
  if n < 10 then [Nat.digitChar n]
  else natToDigitList (n / 10) ++ [Nat.digitChar (n % 10)]
decreasing_by exact Nat.div_lt_self (by omega) (by omega)

/-- Models `Decimal.toFixed(2)` for a non-negative value: round half-up to a
whole number of hundredths (decimal.js's default `ROUND_HALF_UP`), then render
with exactly two digits after the decimal point. -/
def toFixed2Pos (q : ℚ) : String :=
  let cents : ℕ := (Int.floor (q * 100 + 1 / 2)).toNat
  String.mk (natToDigitList (cents / 100)) ++ "." ++
    (if cents % 100 < 10 then "0" else "") ++ String.mk (natToDigitList (cents % 100))

/-- Models `Decimal.toFixed(2)`: `ROUND_HALF_UP` rounds ties away from zero,
so a negative value is rendered as the rendering of its negation with a sign. -/
def toFixed2 (q : ℚ) : String :=
  if q < 0 then "-" ++ toFixed2Pos (-q) else toFixed2Pos q

/-- Helper for `escapeDot`: replace the first '.' of a character list by the
two characters backslash and '.'. -/
def escapeDotAux : List Char → List Char
  | [] => []
  | c :: cs => if c = '.' then '\\' :: '.' :: cs else c :: escapeDotAux cs

/-- Models the JavaScript idiom `s.replace('.', String.raw...)` used throughout
main.ts: with a string pattern, `replace` rewrites only the FIRST occurrence
of '.', prefixing it with a backslash. -/
def escapeDot (s : String) : String := String.mk (escapeDotAux s.data)

/-- Models `s.replaceAll('.', ...)` (main.ts line 147): every '.' is prefixed
with a backslash. -/
def escapeDotsAll (s : String) : String :=
  String.mk (s.data.flatMap fun c => if c = '.' then ['\\', '.'] else [c])

/-- Embeds `getStatusString` (main.ts lines 53-68).  The falsy test
`!status.healthFactor` is again a `null` test. -/
def getStatusString (env : Environment) (status : UserStatus) : String :=
  match status.healthFactor with
  | none => "N/A"
  | some hf =>
    match getStatusFromHealth env hf with
    | Status.CRITICAL => "⛔️ Critical ⛔️"
    | Status.GOOD => "✅ Good ✅"
    | Status.WARNING => "⚠️ Warning ⚠️"

/-- Models the `status.healthFactor?.toFixed(2).replace(...) ?? 'N/A'`
rendering of an optional health factor used in main.ts lines 73 and 79-80. -/
def formatOptHF (hf : Option ℚ) : String :=
  match hf with
  | some h => escapeDot (toFixed2 h)
  | none => "N/A"

/-- Embeds the pure formatting part of `getStatusMessage` (main.ts lines
70-74), applied to the sample returned by the fetch. -/
def getStatusMessage (env : Environment) (status : UserStatus) : String :=
  "*" ++ getStatusString env status ++ "*\n\nHealth factor: *" ++
    formatOptHF status.healthFactor ++ "*\nNet worth: *" ++
    escapeDot (toFixed2 status.netWorth) ++ "$*"

/-- Embeds `getDifferenceStatusMessage` (main.ts lines 76-81).  The
`status ??= await getUserStatus()` line is a no-op for a non-null argument and
every caller passes a non-null `status`, so it is not modelled. -/
def getDifferenceStatusMessage (env : Environment)
    (status previousStatus : UserStatus) : String :=
  "*" ++ getStatusString env status ++ "*\n\nHealth factor: *" ++
    formatOptHF previousStatus.healthFactor ++ "* ➡️ *" ++
    formatOptHF status.healthFactor ++ "*\nNet worth: *" ++
    escapeDot (toFixed2 previousStatus.netWorth) ++ "$* ➡️ *" ++
    escapeDot (toFixed2 status.netWorth) ++ "$*"

/-- Embeds `getErrorMessage` (main.ts lines 83-85). -/
def getErrorMessage (error flow : String) : String :=
  "📛 Error on `" ++ flow ++ "` 📛\n```\n" ++ error ++ "```"

/-- Embeds `getAlertMessage` (main.ts lines 134-151) given the fetched sample:
the trigger is computed by `getAlertTrigger` against the previous state, the
old previous sample is saved for the diff message, `previousStatus` is
unconditionally replaced by the new sample, and an alert text is produced
exactly when a trigger fired. -/
def getAlertMessage (env : Environment) (s : EngineState) (status : UserStatus) :
    Option String × EngineState :=
  let r := getAlertTrigger env s.warningWasSent
    { previousStatus := s.previousStatus, status := status }
  let oldPreviousStatus := s.previousStatus
  let newState : EngineState := { previousStatus := status, warningWasSent := r.2 }
  match r.1 with
  | some alertTrigger =>
    (some ("‼️ ALERT ‼️\nTrigger: `" ++ escapeDotsAll alertTrigger ++ "`\n\n" ++
      getDifferenceStatusMessage env status oldPreviousStatus), newState)
  | none => (none, newState)

/-- Outcome of one poll-loop tick: whether the `setTimeout` on main.ts line
189 was reached (scheduling the next tick), and the rejection, if any, that
escaped `checkHealth` and was logged by the caller's `.catch`
(main.ts lines 189 and 192). -/
structure TickOutcome where
  nextScheduled : Bool
  loggedByCaller : Option String
deriving DecidableEq, Repr

/-- Embeds the control flow of one invocation of `checkHealth` (main.ts lines
175-190).  `alertResult` is the outcome of `await getAlertMessage()` (an
exception or an optional alert text); `send` is the outcome of
`bot.telegram.sendMessage` on a given text.  JavaScript semantics: if the
`await` inside the `catch` block rejects, the async function rejects before
reaching the `setTimeout` on line 189, so no next tick is scheduled and the
rejection is only logged by the caller's `.catch`. -/
def checkHealth (alertResult : Except String (Option String))
    (send : String → Except String Unit) : TickOutcome :=
  let tryBlock : Except String Unit :=
    match alertResult with
    | Except.error e => Except.error e
    | Except.ok none => Except.ok ()
    | Except.ok (some m) => send m
  match tryBlock with
  | Except.ok () => { nextScheduled := true, loggedByCaller := none }
  | Except.error e =>
    match send (getErrorMessage e "check") with
    | Except.ok () => { nextScheduled := true, loggedByCaller := none }
    | Except.error e2 => { nextScheduled := false, loggedByCaller := some e2 }

/-- Embeds the `bot.command('status', ...)` handler (main.ts lines 155-165)
together with the engine state it could in principle touch: the handler body
uses only `getStatusMessage` (fetch + format) on success and `getErrorMessage`
on failure; the engine state is passed through untouched, mirroring that the
handler reads and writes neither `previousStatus` nor `warningWasSent`. -/
def statusCommand (env : Environment) (s : EngineState)
    (fetch : Except String UserStatus) : String × EngineState :=
  match fetch with
  | Except.ok st => (getStatusMessage env st, s)
  | Except.error e => (getErrorMessage e "status", s)

/-- Boolean test that `tok` occurs as a contiguous substring of `s`. -/
def strContains (s tok : String) : Bool :=
  s.data.tails.any fun t => tok.data.isPrefixOf t

/-- A threshold configuration under which 2.2 classifies GOOD, for the first
delta example. -/
def envGoodAt22 : Environment :=
  { WARNING_LEVEL := 2, CRITICAL_LEVEL := 1,
    WARNING_DELTA := 1/2, CRITITAL_DELTA := 1 }

/-- A threshold configuration under which 1.9 classifies GOOD, for the second
delta example. -/
def envGoodAt19 : Environment :=
  { WARNING_LEVEL := 3/2, CRITICAL_LEVEL := 1,
    WARNING_DELTA := 1/2, CRITITAL_DELTA := 1 }

/-- Decimal digit characters are never a decimal point. -/
theorem digitChar_ne_dot : ∀ d : ℕ, d < 10 → Nat.digitChar d ≠ '.' := by decide

/-- No decimal point occurs among the rendered digits of a natural number. -/
theorem natToDigitList_no_dot (n : ℕ) : '.' ∉ natToDigitList n := by
  induction n using Nat.strong_induction_on with
  | _ n ih =>
    rw [natToDigitList]
    split_ifs with h10
    · intro hmem
      exact digitChar_ne_dot n h10 (List.mem_singleton.mp hmem).symm
    · intro hmem
      rcases List.mem_append.mp hmem with h | h
      · exact ih (n / 10) (Nat.div_lt_self (by omega) (by omega)) h
      · exact digitChar_ne_dot (n % 10) (Nat.mod_lt n (by omega))
          (List.mem_singleton.mp h).symm

/-- `escapeDotAux` rewrites exactly the first decimal point. -/
theorem escapeDotAux_append (l1 l2 : List Char) (h : '.' ∉ l1) :
    escapeDotAux (l1 ++ '.' :: l2) = l1 ++ '\\' :: '.' :: l2 := by
  induction l1 with
  | nil => simp [escapeDotAux]
  | cons c cs ih =>
    have hc : ¬ c = '.' := fun hcc => h (by simp [hcc])
    have hcs : '.' ∉ cs := fun hm => h (List.mem_cons_of_mem _ hm)
    simp only [List.cons_append, escapeDotAux, List.append_eq, if_neg hc, ih hcs]

/-- Character-level shape of `toFixed2Pos`: digits of the whole part, a single
decimal point, then the two-digit fractional part. -/
theorem toFixed2Pos_data (q : ℚ) :
    (toFixed2Pos q).data =
      natToDigitList ((Int.floor (q * 100 + 1 / 2)).toNat / 100) ++
        '.' :: ((if (Int.floor (q * 100 + 1 / 2)).toNat % 100 < 10 then ['0'] else []) ++
          natToDigitList ((Int.floor (q * 100 + 1 / 2)).toNat % 100)) := by
  unfold toFixed2Pos
  simp [String.data_append, apply_ite String.data]

/-- The fractional part rendered by `toFixed2Pos` contains no decimal point. -/
theorem toFixed2Pos_frac_no_dot (q : ℚ) :
    '.' ∉ ((if (Int.floor (q * 100 + 1 / 2)).toNat % 100 < 10 then ['0'] else []) ++
      natToDigitList ((Int.floor (q * 100 + 1 / 2)).toNat % 100)) := by
  intro hmem
  rcases List.mem_append.mp hmem with h | h
  · split_ifs at h <;> simp_all
  · exact natToDigitList_no_dot _ h

/-- The decimal point of a non-negatively valued `toFixed2` rendering is
escaped by `escapeDot`: the result splits as dot-free digits, a backslash, the
point, and a dot-free two-digit tail. -/
theorem escapeDot_toFixed2 (q : ℚ) (hq : 0 ≤ q) :
    ∃ w f : List Char, (escapeDot (toFixed2 q)).data = w ++ '\\' :: '.' :: f ∧
      '.' ∉ w ∧ '.' ∉ f := by
  refine ⟨natToDigitList ((Int.floor (q * 100 + 1 / 2)).toNat / 100),
    (if (Int.floor (q * 100 + 1 / 2)).toNat % 100 < 10 then ['0'] else []) ++
      natToDigitList ((Int.floor (q * 100 + 1 / 2)).toNat % 100),
    ?_, natToDigitList_no_dot _, toFixed2Pos_frac_no_dot q⟩
  unfold toFixed2 escapeDot
  rw [if_neg (not_lt.mpr hq)]
  show escapeDotAux (toFixed2Pos q).data = _
  rw [toFixed2Pos_data, escapeDotAux_append _ _ (natToDigitList_no_dot _)]

/-- A token placed between two other strings is found by `strContains`. -/
theorem strContains_mid (pre tok post : String) :
    strContains (pre ++ (tok ++ post)) tok = true := by
  unfold strContains
  rw [List.any_eq_true]
  refine ⟨tok.data ++ post.data, ?_, ?_⟩
  · rw [List.mem_tails]
    exact ⟨pre.data, by simp [String.data_append]⟩
  · rw [ List.isPrefixOf_iff_prefix]
    exact List.prefix_append tok.data post.data

/-- C3: classifier correctness.  For every health factor `h`, under thresholds
with `warningLevel > criticalLevel > 0`, `getStatusFromHealth` returns GOOD
exactly when `warningLevel ≤ h`, WARNING exactly when
`criticalLevel ≤ h < warningLevel`, and CRITICAL exactly when
`h < criticalLevel`; boundary values fall into the higher band and the three
bands cover all values. -/
theorem getStatusFromHealth_bands (env : Environment) (h : ℚ)
    (hlt : env.CRITICAL_LEVEL < env.WARNING_LEVEL)
    (hpos : 0 < env.CRITICAL_LEVEL) :
    (getStatusFromHealth env h = Status.GOOD ↔ env.WARNING_LEVEL ≤ h) ∧
    (getStatusFromHealth env h = Status.WARNING ↔
      env.CRITICAL_LEVEL ≤ h ∧ h < env.WARNING_LEVEL) ∧
    (getStatusFromHealth env h = Status.CRITICAL ↔ h < env.CRITICAL_LEVEL) := by
  unfold getStatusFromHealth
  split_ifs with h1 h2 <;> simp_all <;> linarith

/-- Witness for C3 at the default thresholds and `h = 3`. -/
theorem getStatusFromHealth_bands_witness :
    getStatusFromHealth defaultEnv 3 = Status.GOOD ↔ defaultEnv.WARNING_LEVEL ≤ 3 :=
  (getStatusFromHealth_bands defaultEnv 3 (by norm_num [defaultEnv])
    (by norm_num [defaultEnv])).1

/-- C1: warning hysteresis.  With both health factors present and the current
one classifying WARNING: a cleared latch fires the warning trigger and sets
the latch, with no delta check (the result holds for every delta
configuration); a set latch returns no trigger immediately.  Every call whose
current health factor classifies GOOD resets the latch to `false`.  The sample
sequence 2.0, 2.0, 2.0, 3.0, 2.0 under the default thresholds, starting from
the initial state (latch cleared), yields exactly the triggers warning, none,
none, none, warning. -/
theorem warning_hysteresis (env : Environment) (prev cur : UserStatus)
    (php hp : ℚ) (hprev : prev.healthFactor = some php)
    (hcur : cur.healthFactor = some hp) :
    (getStatusFromHealth env hp = Status.WARNING →
      getAlertTrigger env false { previousStatus := prev, status := cur } =
        (some "warning health factor", true) ∧
      getAlertTrigger env true { previousStatus := prev, status := cur } =
        (none, true)) ∧
    (getStatusFromHealth env hp = Status.GOOD →
      ∀ b : Bool,
        (getAlertTrigger env b { previousStatus := prev, status := cur }).2 = false) ∧
    runSequence defaultEnv initialState
      [hfSample 2, hfSample 2, hfSample 2, hfSample 3, hfSample 2] =
      [some "warning health factor", none, none, none,
        some "warning health factor"] := by
  refine ⟨?_, ?_, ?_⟩
  · intro hW
    constructor <;> simp [getAlertTrigger, hprev, hcur, hW]
  · intro hG b
    simp only [getAlertTrigger, hprev, hcur, hG]
    split_ifs <;> rfl
  · norm_num [runSequence, evaluate, getAlertTrigger, getStatusFromHealth,
      defaultEnv, hfSample, initialState]

/-- Witness for C1: previous 3.0, current 2.0 (WARNING under the defaults),
latch cleared, fires the warning trigger and sets the latch. -/
theorem warning_hysteresis_witness :
    getAlertTrigger defaultEnv false
      { previousStatus := hfSample 3, status := hfSample 2 } =
      (some "warning health factor", true) :=
  ((warning_hysteresis defaultEnv (hfSample 3) (hfSample 2) 3 2 rfl rfl).1
    (by norm_num [getStatusFromHealth, defaultEnv])).1

/-- C2: CRITICAL is never suppressed.  With both health factors present and
the current one classifying CRITICAL, `getAlertTrigger` fires the critical
trigger whatever the latch and whatever the previous value, leaving the latch
as it was; the sequence 1.0, 1.0, 1.0 under the default thresholds fires the
critical trigger on every evaluation. -/
theorem critical_never_suppressed (env : Environment) (prev cur : UserStatus)
    (php hp : ℚ) (hprev : prev.healthFactor = some php)
    (hcur : cur.healthFactor = some hp)
    (hcrit : getStatusFromHealth env hp = Status.CRITICAL) (b : Bool) :
    getAlertTrigger env b { previousStatus := prev, status := cur } =
      (some "critical health factor", b) ∧
    runSequence defaultEnv initialState [hfSample 1, hfSample 1, hfSample 1] =
      [some "critical health factor", some "critical health factor",
        some "critical health factor"] := by
  constructor
  · simp [getAlertTrigger, hprev, hcur, hcrit]
  · norm_num [runSequence, evaluate, getAlertTrigger, getStatusFromHealth,
      defaultEnv, hfSample, initialState]

/-- Witness for C2 at previous 1.0, current 1.0, latch set. -/
theorem critical_never_suppressed_witness :
    getAlertTrigger defaultEnv true
      { previousStatus := hfSample 1, status := hfSample 1 } =
      (some "critical health factor", true) :=
  (critical_never_suppressed defaultEnv (hfSample 1) (hfSample 1) 1 1 rfl rfl
    (by norm_num [getStatusFromHealth, defaultEnv]) true).1

/-- C4: delta bands.  On a call that reaches the delta check (both health
factors present, current classifying GOOD), with
`delta = current - previous` in exact arithmetic and
`warningDelta ≤ criticalDelta`: `delta > -warningDelta` yields no trigger,
`-criticalDelta < delta ≤ -warningDelta` fires the warning-delta trigger, and
`delta ≤ -criticalDelta` fires the critical-delta trigger.  In particular with
`warningDelta = 0.5`, `criticalDelta = 1.0`: previous 3.0 to current 2.2 fires
the warning-delta trigger and previous 3.0 to current 1.9 fires the
critical-delta trigger. -/
theorem delta_bands (env : Environment) (prev cur : UserStatus) (php hp : ℚ)
    (hprev : prev.healthFactor = some php) (hcur : cur.healthFactor = some hp)
    (hgood : getStatusFromHealth env hp = Status.GOOD)
    (hdel : env.WARNING_DELTA ≤ env.CRITITAL_DELTA) (b : Bool) :
    ((-env.WARNING_DELTA < hp - php →
      (getAlertTrigger env b { previousStatus := prev, status := cur }).1 = none) ∧
     (hp - php ≤ -env.WARNING_DELTA → -env.CRITITAL_DELTA < hp - php →
      (getAlertTrigger env b { previousStatus := prev, status := cur }).1 =
        some "warning delta of health factor") ∧
     (hp - php ≤ -env.CRITITAL_DELTA →
      (getAlertTrigger env b { previousStatus := prev, status := cur }).1 =
        some "critical delta of health factor")) ∧
    (evaluate envGoodAt22
      { previousStatus := hfSample 3, warningWasSent := false }
      (hfSample (11/5))).1 = some "warning delta of health factor" ∧
    (evaluate envGoodAt19
      { previousStatus := hfSample 3, warningWasSent := false }
      (hfSample (19/10))).1 = some "critical delta of health factor" := by
  refine ⟨⟨?_, ?_, ?_⟩, ?_, ?_⟩
  · intro hlt
    simp [getAlertTrigger, hprev, hcur, hgood, hlt]
  · intro h1 h2
    simp [getAlertTrigger, hprev, hcur, hgood, h2]
    rw [if_neg (by linarith)]
  · intro h1
    simp [getAlertTrigger, hprev, hcur, hgood]
    rw [if_neg (by linarith), if_neg (by linarith)]
  · norm_num [evaluate, getAlertTrigger, getStatusFromHealth, envGoodAt22, hfSample]
  · norm_num [evaluate, getAlertTrigger, getStatusFromHealth, envGoodAt19, hfSample]

/-- Witness for C4: previous 3.0, current 2.2 (GOOD under `envGoodAt22`),
delta -0.8, fires the warning-delta trigger. -/
theorem delta_bands_witness :
    (getAlertTrigger envGoodAt22 false
      { previousStatus := hfSample 3, status := hfSample (11/5) }).1 =
      some "warning delta of health factor" :=
  ((delta_bands envGoodAt22 (hfSample 3) (hfSample (11/5)) 3 (11/5) rfl rfl
    (by norm_num [getStatusFromHealth, envGoodAt22])
    (by norm_num [envGoodAt22]) false).1.2.1
    (by norm_num [envGoodAt22]) (by norm_num [envGoodAt22]))

/-- C5: computability transition.  A current sample with an absent health
factor fires the no-longer-computable trigger when the previous one was
present and yields no trigger (latch untouched) when the previous one was also
absent; an absent previous health factor with a present current one likewise
yields no trigger with the latch untouched (level and delta logic skipped);
and two consecutive evaluations on samples with absent health factors produce
no trigger on the second call. -/
theorem computability_transition (env : Environment) (b : Bool) :
    (∀ prev cur : UserStatus, ∀ x : ℚ, cur.healthFactor = none →
      prev.healthFactor = some x →
      getAlertTrigger env b { previousStatus := prev, status := cur } =
        (some "no health factor now", b)) ∧
    (∀ prev cur : UserStatus, cur.healthFactor = none →
      prev.healthFactor = none →
      getAlertTrigger env b { previousStatus := prev, status := cur } = (none, b)) ∧
    (∀ prev cur : UserStatus, ∀ x : ℚ, cur.healthFactor = some x →
      prev.healthFactor = none →
      getAlertTrigger env b { previousStatus := prev, status := cur } = (none, b)) ∧
    (∀ s : EngineState, ∀ c1 c2 : UserStatus, c1.healthFactor = none →
      c2.healthFactor = none →
      (evaluate env (evaluate env s c1).2 c2).1 = none) := by
  refine ⟨?_, ?_, ?_, ?_⟩
  · intro prev cur x hc hp
    simp [getAlertTrigger, hc, hp]
  · intro prev cur hc hp
    simp [getAlertTrigger, hc, hp]
  · intro prev cur x hc hp
    simp [getAlertTrigger, hc, hp]
  · intro s c1 c2 h1 h2
    simp [evaluate, getAlertTrigger, h1, h2]

/-- Witness for C5: previous 1.5 present, current absent, fires the
no-longer-computable trigger. -/
theorem computability_transition_witness :
    getAlertTrigger defaultEnv false
      { previousStatus := hfSample (3/2), status := noHfSample } =
      (some "no health factor now", false) :=
  (computability_transition defaultEnv false).1 (hfSample (3/2)) noHfSample
    (3/2) rfl rfl

/-- C6: baseline-advance invariant.  After every `getAlertMessage` call —
whichever branch was taken and whether or not an alert text was produced — the
stored previous sample equals the sample just evaluated; the latch equals the
value left by `getAlertTrigger`; an alert text is produced exactly when a
trigger fired; and the alert text is built from the previous sample held
before the call. -/
theorem baseline_advances (env : Environment) (s : EngineState) (cur : UserStatus) :
    (getAlertMessage env s cur).2.previousStatus = cur ∧
    (getAlertMessage env s cur).2.warningWasSent =
      (getAlertTrigger env s.warningWasSent
        { previousStatus := s.previousStatus, status := cur }).2 ∧
    ((getAlertMessage env s cur).1 = none ↔
      (getAlertTrigger env s.warningWasSent
        { previousStatus := s.previousStatus, status := cur }).1 = none) ∧
    (∀ t, (getAlertTrigger env s.warningWasSent
        { previousStatus := s.previousStatus, status := cur }).1 = some t →
      (getAlertMessage env s cur).1 =
        some ("‼️ ALERT ‼️\nTrigger: `" ++ escapeDotsAll t ++ "`\n\n" ++
          getDifferenceStatusMessage env cur s.previousStatus)) := by
  refine ⟨?_, ?_, ?_, ?_⟩
  · simp only [getAlertMessage]
    split <;> rfl
  · simp only [getAlertMessage]
    split <;> rfl
  · simp only [getAlertMessage]
    split <;> simp_all
  · intro t ht
    simp only [getAlertMessage]
    rw [ht]

/-- C10: first-tick behaviour of the sentinel baseline.  The initial state
holds `previousStatus.healthFactor = some 0`, a present value, so a first
sample with an absent health factor fires the no-longer-computable trigger;
and a first sample classifying GOOD (under positive `warningLevel` and
`warningDelta`) is compared against the zero baseline and yields no trigger at
all, in particular no delta trigger. -/
theorem first_tick_sentinel (env : Environment)
    (hwd : 0 < env.WARNING_DELTA) (hwl : 0 < env.WARNING_LEVEL) :
    (∀ nw : ℚ,
      (evaluate env initialState { healthFactor := none, netWorth := nw }).1 =
        some "no health factor now") ∧
    (∀ h nw : ℚ, getStatusFromHealth env h = Status.GOOD →
      (evaluate env initialState { healthFactor := some h, netWorth := nw }).1 =
        none) := by
  constructor
  · intro nw
    simp [evaluate, getAlertTrigger, initialState]
  · intro h nw hG
    have hwlh : env.WARNING_LEVEL ≤ h := by
      by_contra hcon
      simp [getStatusFromHealth, hcon] at hG
      split at hG <;> simp_all
    simp [evaluate, getAlertTrigger, initialState, hG]
    rw [if_pos (by linarith)]

/-- Witness for C10: first fetched sample has an absent health factor, the
first evaluation fires the no-longer-computable trigger. -/
theorem first_tick_sentinel_witness :
    (evaluate defaultEnv initialState
      { healthFactor := none, netWorth := 5 }).1 = some "no health factor now" :=
  (first_tick_sentinel defaultEnv (by norm_num [defaultEnv])
    (by norm_num [defaultEnv])).1 5

/-- C9: status formatting totality on an absent health factor.  For every
non-negative net worth, the rendered status message is the fixed template
whose severity badge and health-factor field are both the literal token
`N/A` (so `strContains` finds the token), the formatting is a total function,
and the decimal point of the rendered net worth is escaped with a
backslash. -/
theorem formatStatus_absent (env : Environment) (q : ℚ) (hq : 0 ≤ q) :
    getStatusMessage env { healthFactor := none, netWorth := q } =
      "*N/A*\n\nHealth factor: *N/A*\nNet worth: *" ++
        escapeDot (toFixed2 q) ++ "$*" ∧
    strContains (getStatusMessage env { healthFactor := none, netWorth := q })
      "N/A" = true ∧
    (∃ w f : List Char, (escapeDot (toFixed2 q)).data = w ++ '\\' :: '.' :: f ∧
      '.' ∉ w ∧ '.' ∉ f) := by
  have hmsg : getStatusMessage env { healthFactor := none, netWorth := q } =
      "*" ++ ("N/A" ++ ("*\n\nHealth factor: *N/A*\nNet worth: *" ++
        (escapeDot (toFixed2 q) ++ "$*"))) := by
    unfold getStatusMessage getStatusString formatOptHF
    apply String.ext
    simp [String.data_append]
  refine ⟨?_, ?_, escapeDot_toFixed2 q hq⟩
  · rw [hmsg]
    apply String.ext
    simp [String.data_append]
  · rw [hmsg]
    exact strContains_mid "*" "N/A" _

/-- Witness for C9 at net worth 0. -/
theorem formatStatus_absent_witness :
    getStatusMessage defaultEnv { healthFactor := none, netWorth := 0 } =
      "*N/A*\n\nHealth factor: *N/A*\nNet worth: *" ++
        escapeDot (toFixed2 0) ++ "$*" :=
  (formatStatus_absent defaultEnv 0 le_rfl).1

/-- C7: behaviour of one poll-loop tick.  A failing tick whose
error-notification delivery succeeds reaches the `setTimeout`, so the next
tick is scheduled; but when that recovery delivery itself fails, the rejection
escapes the `catch` block before the `setTimeout` line, so the failure is only
logged by the caller and NO next tick is scheduled — refuting the claim that
the loop never terminates because one tick failed. -/
theorem checkHealth_recovery :
    checkHealth (Except.error "fetch failed") (fun _ => Except.ok ()) =
      { nextScheduled := true, loggedByCaller := none } ∧
    checkHealth (Except.error "fetch failed")
      (fun _ => Except.error "telegram down") =
      { nextScheduled := false, loggedByCaller := some "telegram down" } :=
  ⟨rfl, rfl⟩

/-- C8: status-query frame property.  The status command renders the fetched
sample on success and an error message on failure, its engine state passes
through unchanged in both cases, and its output is independent of the engine
state. -/
theorem statusCommand_frame (env : Environment) (s s2 : EngineState)
    (fetch : Except String UserStatus) :
    (statusCommand env s fetch).2 = s ∧
    (statusCommand env s fetch).1 = (statusCommand env s2 fetch).1 ∧
    (∀ st, fetch = Except.ok st →
      (statusCommand env s fetch).1 = getStatusMessage env st) ∧
    (∀ e, fetch = Except.error e →
      (statusCommand env s fetch).1 = getErrorMessage e "status") := by
  cases fetch <;> simp [statusCommand]

/-- Witness for C8: a successful fetch of sample 3.0 renders the status
message and leaves the initial engine state unchanged. -/
theorem statusCommand_frame_witness :
    (statusCommand defaultEnv initialState (Except.ok (hfSample 3))).1 =
      getStatusMessage defaultEnv (hfSample 3) ∧
    (statusCommand defaultEnv initialState (Except.ok (hfSample 3))).2 =
      initialState :=
  ⟨(statusCommand_frame defaultEnv initialState initialState
      (Except.ok (hfSample 3))).2.2.1 (hfSample 3) rfl,
   (statusCommand_frame defaultEnv initialState initialState
      (Except.ok (hfSample 3))).1⟩

end AaveNotifier
